import Mathlib

/-!
Verification of the Kagazi paper-trading platform core against its
natural-language specification.

The development shallowly embeds the TypeScript sources:
  * `src/lib/trading-utils.ts` — charge calculator, order validator,
    portfolio ledger (`updatePortfolioAfterTrade`);
  * `src/pages/api/trading/place-order.ts` — order pipeline persistence;
  * `src/components/charts/TradingChart.tsx` — real-time 5-minute candle
    aggregator.

Conventions: JavaScript numbers are modelled as exact rationals (ℚ);
`Math.round` is `⌊x + 1/2⌋` (half toward +∞, which matches JS on both signs);
the JS `||` fallback on an optional numeric field (undefined and 0 both
falsy) is `jsOr`; wall-clock `Date` fields (`lastUpdated`, `createdAt`,
`executedAt`) carry no program logic and are omitted from the records.
-/

namespace Kagazi

/-- JS `Math.round`: round half toward positive infinity, `⌊q + 1/2⌋`
(this matches JS `Math.round` on negative arguments as well). -/
def jsRound (q : ℚ) : ℤ := ⌊q + 1/2⌋

/-- JS `Math.round(x * 100) / 100` — round to 2 decimal places. -/
def round2 (q : ℚ) : ℚ := (jsRound (q * 100) : ℚ) / 100

/-- JS `x || d` on an optional numeric field: `undefined` and `0` are falsy. -/
def jsOr (x : Option ℚ) (d : ℚ) : ℚ :=
  match x with
  | none => d
  | some v => if v = 0 then d else v

/-- Order side, `'BUY' | 'SELL'` in `trading-utils.ts`. -/
inductive Side
  | BUY
  | SELL
deriving DecidableEq, Repr

/-- Order kind, `'MARKET' | 'LIMIT' | 'STOP' | 'STOP_LIMIT'`. -/
inductive OrderKind
  | MARKET
  | LIMIT
  | STOP
  | STOP_LIMIT
deriving DecidableEq, Repr

/-- `TradingCharges` interface of `trading-utils.ts`. -/
structure TradingCharges where
  brokerage : ℚ
  stt : ℚ
  exchangeCharges : ℚ
  gst : ℚ
  stampDuty : ℚ
  sebiCharges : ℚ
  total : ℚ
deriving DecidableEq, Repr

/-- Unrounded brokerage: `min(orderValue * 0.0003, 20)`. -/
def rawBrokerage (orderValue : ℚ) : ℚ := min (orderValue * (3/10000)) 20

/-- Unrounded STT: `0.001 * orderValue` on SELL, `0` on BUY. -/
def rawStt (orderValue : ℚ) : Side → ℚ
  | Side.SELL => orderValue * (1/1000)
  | Side.BUY => 0

/-- Unrounded exchange charges: `orderValue * 0.0000345`. -/
def rawExchangeCharges (orderValue : ℚ) : ℚ := orderValue * (345/10000000)

/-- Unrounded SEBI charges: `orderValue * 0.000001`. -/
def rawSebiCharges (orderValue : ℚ) : ℚ := orderValue * (1/1000000)

/-- Unrounded stamp duty: `0.00015 * orderValue` on BUY, `0` on SELL. -/
def rawStampDuty (orderValue : ℚ) : Side → ℚ
  | Side.BUY => orderValue * (15/100000)
  | Side.SELL => 0

/-- Unrounded GST: 18% of (brokerage + exchange charges + SEBI charges). -/
def rawGst (orderValue : ℚ) : ℚ :=
  (rawBrokerage orderValue + rawExchangeCharges orderValue + rawSebiCharges orderValue)
    * (18/100)

/-- `calculateTradingCharges` of `trading-utils.ts` (lines 40–80): each
component is computed unrounded, the total is the sum of the unrounded
components, and every returned field is then rounded to 2 decimals. -/
def calculateTradingCharges (orderValue : ℚ) (orderType : Side) : TradingCharges :=
  let brokerage := rawBrokerage orderValue
  let stt := rawStt orderValue orderType
  let exchangeCharges := rawExchangeCharges orderValue
  let sebiCharges := rawSebiCharges orderValue
  let stampDuty := rawStampDuty orderValue orderType
  let gst := rawGst orderValue
  let total := brokerage + stt + exchangeCharges + gst + stampDuty + sebiCharges
  { brokerage := round2 brokerage
    stt := round2 stt
    exchangeCharges := round2 exchangeCharges
    gst := round2 gst
    stampDuty := round2 stampDuty
    sebiCharges := round2 sebiCharges
    total := round2 total }

/-- `IHolding` of `src/models/Portfolio.ts` (the `lastUpdated : Date` field
carries no program logic and is omitted). -/
structure IHolding where
  symbol : String
  quantity : ℚ
  averagePrice : ℚ
  currentPrice : ℚ
  investedValue : ℚ
  currentValue : ℚ
  pnl : ℚ
  pnlPercent : ℚ
  dayChange : ℚ
  dayChangePercent : ℚ
deriving DecidableEq, Repr

/-- `IPortfolio` of `src/models/Portfolio.ts` (identifier and timestamp
fields omitted). -/
structure IPortfolio where
  cash : ℚ
  totalInvested : ℚ
  currentValue : ℚ
  totalPnl : ℚ
  totalPnlPercent : ℚ
  dayPnl : ℚ
  dayPnlPercent : ℚ
  holdings : List IHolding
deriving DecidableEq, Repr

/-- The fields of `QuoteData` (`src/lib/market-data.ts`) that the ledger
reads; the remaining fields are never consumed by `trading-utils.ts`. -/
structure QuoteData where
  symbol : String
  regularMarketPrice : ℚ
  regularMarketChange : ℚ
  regularMarketChangePercent : ℚ
deriving DecidableEq, Repr

/-- `ITrade` of `src/models/Trade.ts` (identifier and timestamp fields
omitted; `status` kept as the literal string the handler stores). -/
structure ITrade where
  symbol : String
  type : Side
  orderType : OrderKind
  quantity : ℚ
  price : ℚ
  limitPrice : Option ℚ
  stopPrice : Option ℚ
  status : String
  executedQuantity : ℚ
  executedPrice : ℚ
  totalValue : ℚ
  charges : TradingCharges
deriving DecidableEq, Repr

/-- Replace the first element satisfying `p` by its image under `f` —
the effect of `holdings.find(...)` followed by in-place mutation of the
found element, observed on the resulting array. -/
def updateFirst (p : IHolding → Bool) (f : IHolding → IHolding) :
    List IHolding → List IHolding
  | [] => []
  | h :: t => if p h then f h :: t else h :: updateFirst p f t

/-- BUY branch of `updatePortfolioAfterTrade` on an existing holding
(`trading-utils.ts` lines 220–235). -/
def buyUpdateHolding (trade : ITrade) (currentQuote : QuoteData) (h : IHolding) : IHolding :=
  let totalQuantity := h.quantity + trade.executedQuantity
  let totalInvested := h.averagePrice * h.quantity
    + trade.executedPrice * trade.executedQuantity + trade.charges.total
  { h with
    quantity := totalQuantity
    averagePrice := totalInvested / totalQuantity
    investedValue := totalInvested
    currentPrice := currentQuote.regularMarketPrice
    currentValue := totalQuantity * currentQuote.regularMarketPrice
    pnl := totalQuantity * currentQuote.regularMarketPrice - totalInvested
    pnlPercent := (totalQuantity * currentQuote.regularMarketPrice - totalInvested)
      / totalInvested * 100
    dayChange := currentQuote.regularMarketChange
    dayChangePercent := currentQuote.regularMarketChangePercent }

/-- BUY branch of `updatePortfolioAfterTrade` when no holding exists
(`trading-utils.ts` lines 236–256). -/
def newHolding (trade : ITrade) (currentQuote : QuoteData) : IHolding :=
  let investedValue := trade.executedPrice * trade.executedQuantity + trade.charges.total
  let currentValue := trade.executedQuantity * currentQuote.regularMarketPrice
  { symbol := trade.symbol
    quantity := trade.executedQuantity
    averagePrice := investedValue / trade.executedQuantity
    currentPrice := currentQuote.regularMarketPrice
    investedValue := investedValue
    currentValue := currentValue
    pnl := currentValue - investedValue
    pnlPercent := (currentValue - investedValue) / investedValue * 100
    dayChange := currentQuote.regularMarketChange
    dayChangePercent := currentQuote.regularMarketChangePercent }

/-- Holdings after the BUY branch of `updatePortfolioAfterTrade`. -/
def applyBuyHoldings (trade : ITrade) (currentQuote : QuoteData)
    (l : List IHolding) : List IHolding :=
  match l.find? (fun h => h.symbol == trade.symbol) with
  | some _ => updateFirst (fun h => h.symbol == trade.symbol)
      (buyUpdateHolding trade currentQuote) l
  | none => l ++ [newHolding trade currentQuote]

/-- Recomputation of a partially sold holding
(`trading-utils.ts` lines 271–277); `h1` is the holding after its
quantity was decremented. -/
def sellRecompute (currentQuote : QuoteData) (h1 : IHolding) : IHolding :=
  { h1 with
    investedValue := h1.averagePrice * h1.quantity
    currentValue := h1.quantity * currentQuote.regularMarketPrice
    pnl := h1.quantity * currentQuote.regularMarketPrice - h1.averagePrice * h1.quantity
    pnlPercent := (h1.quantity * currentQuote.regularMarketPrice
        - h1.averagePrice * h1.quantity) / (h1.averagePrice * h1.quantity) * 100 }

/-- Holdings after the SELL branch of `updatePortfolioAfterTrade`
(`trading-utils.ts` lines 262–278): the found holding's quantity is
decremented in place; if it reaches exactly 0 every holding with the
trade's symbol is filtered out, otherwise the holding's derived values
are recomputed. -/
def applySellHoldings (trade : ITrade) (currentQuote : QuoteData)
    (l : List IHolding) : List IHolding :=
  match l.find? (fun h => h.symbol == trade.symbol) with
  | none => l
  | some h =>
    if h.quantity - trade.executedQuantity = 0 then
      l.filter (fun x => !(x.symbol == trade.symbol))
    else
      updateFirst (fun x => x.symbol == trade.symbol)
        (fun h0 => sellRecompute currentQuote
          { h0 with quantity := h0.quantity - trade.executedQuantity }) l

/-- `updatePortfolioAfterTrade` of `trading-utils.ts` (lines 206–304),
observed on the returned portfolio value: cash moves by the trade's
total value ± charges, the holdings list is transformed per side, and
the portfolio aggregates are recomputed by folding over the holdings. -/
def updatePortfolioAfterTrade (portfolio : IPortfolio) (trade : ITrade)
    (currentQuote : QuoteData) : IPortfolio :=
  let cash := match trade.type with
    | Side.BUY => portfolio.cash - (trade.totalValue + trade.charges.total)
    | Side.SELL => portfolio.cash + (trade.totalValue - trade.charges.total)
  let holdings := match trade.type with
    | Side.BUY => applyBuyHoldings trade currentQuote portfolio.holdings
    | Side.SELL => applySellHoldings trade currentQuote portfolio.holdings
  let totalInvested := holdings.foldl (fun sum h => sum + h.investedValue) 0
  let currentValue := holdings.foldl (fun sum h => sum + h.currentValue) 0
  let totalPnl := currentValue - totalInvested
  let dayPnl := holdings.foldl (fun sum h => sum + h.dayChange * h.quantity) 0
  { cash := cash
    totalInvested := totalInvested
    currentValue := currentValue
    totalPnl := totalPnl
    totalPnlPercent := if totalInvested > 0 then totalPnl / totalInvested * 100 else 0
    dayPnl := dayPnl
    dayPnlPercent := if currentValue > 0 then dayPnl / currentValue * 100 else 0
    holdings := holdings }

/-- `OrderRequest` interface of `trading-utils.ts`. Optional numeric
fields are `Option ℚ` (`none` = JS `undefined`). -/
structure OrderRequest where
  symbol : String
  type : Side
  orderType : OrderKind
  quantity : ℚ
  price : Option ℚ
  limitPrice : Option ℚ
  stopPrice : Option ℚ
deriving DecidableEq, Repr

/-- `OrderValidation` interface of `trading-utils.ts`. -/
structure OrderValidation where
  isValid : Bool
  errors : List String
  warnings : List String
deriving DecidableEq, Repr

/-- JS truthiness of an optional numeric field: `undefined` and `0` are
falsy, every other number is truthy. -/
def jsTruthy : Option ℚ → Bool
  | none => false
  | some v => decide (v ≠ 0)

/-- `validateOrder` of `trading-utils.ts` (lines 85–168). Error and
warning messages are pushed in source order; numeric interpolations use
`toString` in place of JS `toFixed(2)` (presentation only). -/
def validateOrder (order : OrderRequest) (portfolio : IPortfolio)
    (currentPrice : ℚ) : OrderValidation :=
  let e1 := if order.quantity ≤ 0 then ["Quantity must be greater than 0"] else []
  let e2 := if order.quantity.den ≠ 1 then ["Quantity must be a whole number"] else []
  let e3 := if order.orderType = OrderKind.LIMIT ∧ jsTruthy order.limitPrice = false
    then ["Limit price is required for limit orders"] else []
  let e4 := if order.orderType = OrderKind.STOP ∧ jsTruthy order.stopPrice = false
    then ["Stop price is required for stop orders"] else []
  let e5 := if order.orderType = OrderKind.STOP_LIMIT
      ∧ (jsTruthy order.limitPrice = false ∨ jsTruthy order.stopPrice = false)
    then ["Both limit price and stop price are required for stop-limit orders"] else []
  let e6 := if jsTruthy order.limitPrice = true ∧ order.limitPrice.getD 0 ≤ 0
    then ["Limit price must be greater than 0"] else []
  let e7 := if jsTruthy order.stopPrice = true ∧ order.stopPrice.getD 0 ≤ 0
    then ["Stop price must be greater than 0"] else []
  let eBuy := if order.type = Side.BUY then
      let orderPrice := match order.orderType with
        | OrderKind.MARKET => currentPrice
        | _ => jsOr order.limitPrice currentPrice
      let orderValue := order.quantity * orderPrice
      let charges := calculateTradingCharges orderValue Side.BUY
      let totalRequired := orderValue + charges.total
      if totalRequired > portfolio.cash then
        ["Insufficient funds. Required: ₹" ++ toString totalRequired
          ++ ", Available: ₹" ++ toString portfolio.cash]
      else []
    else []
  let wBuy := if order.type = Side.BUY ∧ order.quantity > 1000
    then ["Large order size may impact market price"] else []
  let eSell := if order.type = Side.SELL then
      match portfolio.holdings.find? (fun h => h.symbol == order.symbol) with
      | none => ["You don\x27t own any shares of " ++ order.symbol]
      | some holding =>
        if holding.quantity < order.quantity then
          ["Insufficient quantity. You own " ++ toString holding.quantity
            ++ " shares, trying to sell " ++ toString order.quantity]
        else []
    else []
  let priceVariation := |currentPrice - jsOr order.limitPrice currentPrice| / currentPrice
  let wBand := if priceVariation > 1/10
    then ["Order price is beyond 10% price band"] else []
  let errors := e1 ++ e2 ++ e3 ++ e4 ++ e5 ++ e6 ++ e7 ++ eBuy ++ eSell
  { isValid := errors.isEmpty
    errors := errors
    warnings := wBuy ++ wBand }

/-- The portfolio `place-order.ts` creates for a first-time user
(lines 52–63), with the cash balance kept as a parameter. -/
def freshPortfolio (cash : ℚ) : IPortfolio :=
  { cash := cash
    totalInvested := 0
    currentValue := 0
    totalPnl := 0
    totalPnlPercent := 0
    dayPnl := 0
    dayPnlPercent := 0
    holdings := [] }

/-- The trade record `place-order.ts` builds for an executed market order
(lines 90–109): `totalValue = executedPrice * executedQuantity`, charges
computed on that value for the order's side, status `"EXECUTED"`. -/
def mkExecutedTrade (symbol : String) (side : Side) (qty price : ℚ) : ITrade :=
  { symbol := symbol
    type := side
    orderType := OrderKind.MARKET
    quantity := qty
    price := price
    limitPrice := none
    stopPrice := none
    status := "EXECUTED"
    executedQuantity := qty
    executedPrice := price
    totalValue := price * qty
    charges := calculateTradingCharges (price * qty) side }

/-! ## Candle aggregator (`src/components/charts/TradingChart.tsx`)

`fetchRealTimeData` (lines 465–555) maintains one open 5-minute candle in
`currentCandle` state. The model keeps, in addition, the list of candles
that have been sealed (replaced by a newer open candle) — the emitted
history — and the `isRealTimeActive` flag (`active`), which the code
clears when the quote reports a CLOSED market. Event times are epoch
milliseconds; `getCurrentCandleStartTime` zeroes seconds/milliseconds and
truncates the minute to a multiple of 5 in local time, which for any
time-zone offset that is a whole multiple of 5 minutes (IST is +5:30)
equals flooring the epoch second to a multiple of 300. -/

/-- `marketState` values of the quote feed. -/
inductive MarketState
  | REGULAR
  | PRE
  | POST
  | CLOSED
deriving DecidableEq, Repr

/-- The fields of the `/api/market/quote` JSON that `fetchRealTimeData`
reads. Optional fields are `Option ℚ` (`none` = absent/undefined). -/
structure ChartQuote where
  regularMarketPrice : ℚ
  regularMarketDayHigh : Option ℚ
  regularMarketDayLow : Option ℚ
  regularMarketOpen : Option ℚ
  regularMarketVolume : Option ℚ
  marketState : MarketState
deriving DecidableEq, Repr

/-- The `currentCandle` state shape of `TradingChart.tsx` (lines 421–429). -/
structure Candle where
  startTime : ℕ
  endTime : ℕ
  «open» : ℚ
  high : ℚ
  low : ℚ
  close : ℚ
  volume : ℚ
deriving DecidableEq, Repr

/-- `getCurrentCandleStartTime` (lines 441–447): 5-minute-aligned bucket
start, in epoch seconds, of an epoch-millisecond timestamp. -/
def getCurrentCandleStartTime (timestamp : ℕ) : ℕ :=
  timestamp / 1000 / 300 * 300

/-- `shouldCreateNewCandle` (lines 450–453): a new candle is created
whenever the timestamp's bucket start differs from the open candle's —
the comparison is plain inequality, with no direction check. -/
def shouldCreateNewCandle (timestamp : ℕ) (currentCandleStartTime : ℕ) : Bool :=
  getCurrentCandleStartTime timestamp != currentCandleStartTime

/-- The new candle built at lines 512–520: open = quote's day open
(falling back to price), high/low widened by price and day high/low,
close = price, volume = quote volume. -/
def mkNewCandle (timestamp : ℕ) (q : ChartQuote) : Candle :=
  let currentPrice := q.regularMarketPrice
  let dayHigh := jsOr q.regularMarketDayHigh currentPrice
  let dayLow := jsOr q.regularMarketDayLow currentPrice
  let openPrice := jsOr q.regularMarketOpen currentPrice
  let volume := jsOr q.regularMarketVolume 0
  let cs := getCurrentCandleStartTime timestamp
  { startTime := cs
    endTime := cs + 5 * 60
    «open» := openPrice
    high := max (max openPrice currentPrice) dayHigh
    low := min (min openPrice currentPrice) dayLow
    close := currentPrice
    volume := volume }

/-- The same-bucket update at lines 534–540. -/
def updateCandle (c : Candle) (q : ChartQuote) : Candle :=
  let currentPrice := q.regularMarketPrice
  let dayHigh := jsOr q.regularMarketDayHigh currentPrice
  let dayLow := jsOr q.regularMarketDayLow currentPrice
  let volume := jsOr q.regularMarketVolume 0
  { c with
    high := max (max c.high currentPrice) dayHigh
    low := min (min c.low currentPrice) dayLow
    close := currentPrice
    volume := max c.volume volume }

/-- Aggregator state: the open candle, the sealed history, and the
real-time-active flag. -/
structure AggState where
  currentCandle : Option Candle
  sealedCandles : List Candle
  active : Bool
deriving DecidableEq, Repr

/-- One tick of `fetchRealTimeData` (lines 465–555): inactive state is
inert; a CLOSED market clears the active flag and stops updates;
otherwise the quote either opens a new candle (sealing the previous one)
or updates the open candle in place. -/
def ingest (st : AggState) (timestamp : ℕ) (q : ChartQuote) : AggState :=
  if st.active = false then st
  else if q.marketState = MarketState.CLOSED then { st with active := false }
  else
    match st.currentCandle with
    | none => { st with currentCandle := some (mkNewCandle timestamp q) }
    | some c =>
      if shouldCreateNewCandle timestamp c.startTime then
        { st with
          currentCandle := some (mkNewCandle timestamp q)
          sealedCandles := st.sealedCandles ++ [c] }
      else
        { st with currentCandle := some (updateCandle c q) }

/-- Initial aggregator state: no candle, no history, real-time active. -/
def initAgg : AggState :=
  { currentCandle := none, sealedCandles := [], active := true }

/-- Run the aggregator over a sequence of (timestamp, quote) ticks. -/
def aggregate (steps : List (ℕ × ChartQuote)) : AggState :=
  steps.foldl (fun st s => ingest st s.1 s.2) initAgg

/-- All candles the aggregator has produced: sealed history plus the
open candle. -/
def emitted (st : AggState) : List Candle :=
  st.sealedCandles ++ st.currentCandle.toList

/-- OHLC well-formedness: `high ≥ max(open, close)` and
`low ≤ min(open, close)`. -/
def goodCandle (c : Candle) : Prop :=
  max c.«open» c.close ≤ c.high ∧ c.low ≤ min c.«open» c.close

/-- Aggregator invariant relative to a time bound `b`: emitted candles
have strictly increasing bucket starts and are OHLC-well-formed, the open
candle's bucket is at most `b`'s bucket, and a state with no open candle
has no history. -/
def Inv (st : AggState) (b : ℕ) : Prop :=
  (emitted st).Pairwise (fun a d => a.startTime < d.startTime)
  ∧ (∀ c ∈ emitted st, goodCandle c)
  ∧ (∀ c ∈ st.currentCandle, c.startTime ≤ getCurrentCandleStartTime b)
  ∧ (st.currentCandle = none → st.sealedCandles = [])

/-! ## Reference semantics of `updatePortfolioAfterTrade` (frame effect)

The JS function receives the portfolio as an object graph: `holdings` is a
reference to an array object whose elements are references to Holding
objects. `{ ...portfolio }` copies the scalar fields but shares the array
reference; `Array.prototype.find` returns an alias of an element; field
assignments mutate the aliased object in place; only the
`holdings = holdings.filter(...)` assignment (quantity reached zero) binds
the *output* portfolio to a freshly allocated array. The store-passing
model below makes the aliasing explicit: a `Store` maps array addresses to
element-address lists and object addresses to `IHolding` values. -/

/-- A portfolio whose `holdings` field is the address of an array object. -/
structure PortfolioRef where
  cash : ℚ
  totalInvested : ℚ
  currentValue : ℚ
  totalPnl : ℚ
  totalPnlPercent : ℚ
  dayPnl : ℚ
  dayPnlPercent : ℚ
  holdings : ℕ
deriving DecidableEq, Repr

/-- The object store: array objects, holding objects, next fresh address. -/
structure Store where
  arrs : List (ℕ × List ℕ)
  objs : List (ℕ × IHolding)
  nextAddr : ℕ
deriving DecidableEq, Repr

/-- Dereference an array address (a dangling address reads as empty). -/
def Store.getArr (σ : Store) (a : ℕ) : List ℕ :=
  ((σ.arrs.find? (fun p => p.1 == a)).map Prod.snd).getD []

/-- Dereference a holding-object address. -/
def Store.getObj (σ : Store) (a : ℕ) : Option IHolding :=
  (σ.objs.find? (fun p => p.1 == a)).map Prod.snd

/-- Mutate the array object at address `a`. -/
def Store.setArr (σ : Store) (a : ℕ) (l : List ℕ) : Store :=
  { σ with arrs := σ.arrs.map (fun p => if p.1 == a then (a, l) else p) }

/-- Mutate the holding object at address `a`. -/
def Store.setObj (σ : Store) (a : ℕ) (h : IHolding) : Store :=
  { σ with objs := σ.objs.map (fun p => if p.1 == a then (a, h) else p) }

/-- Allocate a fresh array object. -/
def Store.allocArr (σ : Store) (l : List ℕ) : Store × ℕ :=
  ({ σ with arrs := σ.arrs ++ [(σ.nextAddr, l)], nextAddr := σ.nextAddr + 1 },
    σ.nextAddr)

/-- Allocate a fresh holding object. -/
def Store.allocObj (σ : Store) (h : IHolding) : Store × ℕ :=
  ({ σ with objs := σ.objs ++ [(σ.nextAddr, h)], nextAddr := σ.nextAddr + 1 },
    σ.nextAddr)

/-- `holdings.find(h => h.symbol === sym)`: first element address whose
referent has the symbol. -/
def findAddr (σ : Store) (sym : String) : List ℕ → Option ℕ
  | [] => none
  | a :: rest =>
    match σ.getObj a with
    | some h => if h.symbol == sym then some a else findAddr σ sym rest
    | none => findAddr σ sym rest

/-- The holding values an array address currently references. -/
def readHoldings (σ : Store) (arrAddr : ℕ) : List IHolding :=
  (σ.getArr arrAddr).filterMap σ.getObj

/-- The aggregate recomputation at the end of `updatePortfolioAfterTrade`
(lines 281–301), reading the output portfolio's holdings through the
store. -/
def finishTotals (σ : Store) (pf : PortfolioRef) : PortfolioRef :=
  let hs := readHoldings σ pf.holdings
  let totalInvested := hs.foldl (fun sum h => sum + h.investedValue) 0
  let currentValue := hs.foldl (fun sum h => sum + h.currentValue) 0
  let totalPnl := currentValue - totalInvested
  let dayPnl := hs.foldl (fun sum h => sum + h.dayChange * h.quantity) 0
  { pf with
    totalInvested := totalInvested
    currentValue := currentValue
    totalPnl := totalPnl
    totalPnlPercent := if totalInvested > 0 then totalPnl / totalInvested * 100 else 0
    dayPnl := dayPnl
    dayPnlPercent := if currentValue > 0 then dayPnl / currentValue * 100 else 0 }

/-- `updatePortfolioAfterTrade` with the object graph explicit: the
returned portfolio is a shallow copy (`{ ...portfolio }`) sharing the
holdings array address; found holdings are mutated in place through
their address; a BUY with no existing holding pushes onto the shared
array; only the sell-to-zero case rebinds the output's `holdings` to a
newly allocated filtered array. -/
def updatePortfolioAfterTradeRef (σ : Store) (pf : PortfolioRef)
    (trade : ITrade) (currentQuote : QuoteData) : Store × PortfolioRef :=
  let arrAddr := pf.holdings
  match trade.type with
  | Side.BUY =>
    let cash1 := pf.cash - (trade.totalValue + trade.charges.total)
    let elems := σ.getArr arrAddr
    match findAddr σ trade.symbol elems with
    | some a =>
      let σ1 := match σ.getObj a with
        | some h => σ.setObj a (buyUpdateHolding trade currentQuote h)
        | none => σ
      (σ1, finishTotals σ1 { pf with cash := cash1 })
    | none =>
      let alloc := σ.allocObj (newHolding trade currentQuote)
      let σ2 := alloc.1.setArr arrAddr (elems ++ [alloc.2])
      (σ2, finishTotals σ2 { pf with cash := cash1 })
  | Side.SELL =>
    let cash1 := pf.cash + (trade.totalValue - trade.charges.total)
    let elems := σ.getArr arrAddr
    match findAddr σ trade.symbol elems with
    | none => (σ, finishTotals σ { pf with cash := cash1 })
    | some a =>
      match σ.getObj a with
      | none => (σ, finishTotals σ { pf with cash := cash1 })
      | some h =>
        let h1 := { h with quantity := h.quantity - trade.executedQuantity }
        let σ1 := σ.setObj a h1
        if h1.quantity = 0 then
          let kept := (σ1.getArr arrAddr).filter (fun x =>
            match σ1.getObj x with
            | some hx => !(hx.symbol == trade.symbol)
            | none => true)
          let alloc := σ1.allocArr kept
          (alloc.1, finishTotals alloc.1 { pf with cash := cash1, holdings := alloc.2 })
        else
          let σ2 := σ1.setObj a (sellRecompute currentQuote h1)
          (σ2, finishTotals σ2 { pf with cash := cash1 })

/-! ## Order-pipeline persistence (`place-order.ts`) -/

/-- The persisted state the handler touches: the trade collection and the
user's portfolio document. -/
structure TradingDB where
  trades : List ITrade
  portfolio : IPortfolio
deriving DecidableEq, Repr

/-- Outcome surfaced to the caller: 201 created, or the `catch` block's
500 `ORDER_EXECUTION_FAILED` ("Failed to place order. Please try again."). -/
inductive PlaceOrderOutcome
  | created
  | storageError
deriving DecidableEq, Repr

/-- The persistence tail of the `place-order.ts` handler (lines 111–161):
`trade.save()` and `Portfolio.findOneAndUpdate` are two separate awaited
writes with no surrounding transaction or session. `saveOk` / `updateOk`
say whether each write succeeds; a failed write throws into the `catch`
block, which returns the 500 response and performs no compensation.
The portfolio document itself is written in one `findOneAndUpdate` call
(cash and holdings together, all-or-nothing). -/
def placeOrderPersist (db : TradingDB) (trade : ITrade) (quote : QuoteData)
    (saveOk updateOk : Bool) : TradingDB × PlaceOrderOutcome :=
  if saveOk = false then (db, PlaceOrderOutcome.storageError)
  else
    let db1 := { db with trades := db.trades ++ [trade] }
    if trade.status = "EXECUTED" then
      if updateOk = false then (db1, PlaceOrderOutcome.storageError)
      else
        ({ db1 with portfolio := updatePortfolioAfterTrade db.portfolio trade quote },
          PlaceOrderOutcome.created)
    else (db1, PlaceOrderOutcome.created)

/-- The concrete state and quote refuting C3: an open candle at bucket
300 and a quote at epoch time 0 (bucket 0, strictly earlier). -/
def candle300 : Candle :=
  { startTime := 300, endTime := 600, «open» := 10, high := 10, low := 10,
    close := 10, volume := 0 }

def stC3 : AggState :=
  { currentCandle := some candle300, sealedCandles := [], active := true }

def quoteC3 : ChartQuote :=
  { regularMarketPrice := 11
    regularMarketDayHigh := none
    regularMarketDayLow := none
    regularMarketOpen := none
    regularMarketVolume := none
    marketState := MarketState.REGULAR }

/-- The concrete quote refuting C4: price 105, day open 100, day high
110, day low 95, volume 7. -/
def quoteC4 : ChartQuote :=
  { regularMarketPrice := 105
    regularMarketDayHigh := some 110
    regularMarketDayLow := some 95
    regularMarketOpen := some 100
    regularMarketVolume := some 7
    marketState := MarketState.REGULAR }

/-- A concrete holding of 5 shares of "X" at average price 100. -/
def holdingX5 : IHolding :=
  { symbol := "X"
    quantity := 5
    averagePrice := 100
    currentPrice := 100
    investedValue := 500
    currentValue := 500
    pnl := 0
    pnlPercent := 0
    dayChange := 0
    dayChangePercent := 0 }

/-- A concrete quote for "X" at price 100. -/
def quoteX : QuoteData :=
  { symbol := "X"
    regularMarketPrice := 100
    regularMarketChange := 0
    regularMarketChangePercent := 0 }

/-- A concrete executed BUY trade of 10 shares of "X" at 100. -/
def tradeC1 : ITrade := mkExecutedTrade "X" Side.BUY 10 100

/-- A concrete database: no trades, a fresh ₹10-lakh portfolio. -/
def db0C1 : TradingDB := { trades := [], portfolio := freshPortfolio 1000000 }

/-- A concrete store for the reference-semantics model: one holdings
array at address 0 containing the holding object at address 1. -/
def storeW : Store :=
  { arrs := [(0, [1])], objs := [(1, holdingX5)], nextAddr := 2 }

/-- A concrete portfolio reference whose holdings array is address 0. -/
def pfRefW : PortfolioRef :=
  { cash := 1000
    totalInvested := 500
    currentValue := 500
    totalPnl := 0
    totalPnlPercent := 0
    dayPnl := 0
    dayPnlPercent := 0
    holdings := 0 }

/-- A concrete SELL market order for a symbol the portfolio lacks. -/
def orderW : OrderRequest :=
  { symbol := "TCS"
    type := Side.SELL
    orderType := OrderKind.MARKET
    quantity := 1
    price := none
    limitPrice := none
    stopPrice := none }

/-- A concrete portfolio holding only `holdingX5`. -/
def pfHoldingX : IPortfolio :=
  { freshPortfolio 1000000 with holdings := [holdingX5] }

end Kagazi

namespace Kagazi

/-- C2, counterexample: at order value 11144 (BUY) the code returns
`total = 6.08`, while the rounded sum of the already-rounded components is
`6.07`; so the total is not the rounded sum of the rounded components. -/
theorem calculateTradingCharges_total_ne_sum_rounded :
    (calculateTradingCharges 11144 Side.BUY).total ≠
      round2 ((calculateTradingCharges 11144 Side.BUY).brokerage
        + (calculateTradingCharges 11144 Side.BUY).stt
        + (calculateTradingCharges 11144 Side.BUY).exchangeCharges
        + (calculateTradingCharges 11144 Side.BUY).gst
        + (calculateTradingCharges 11144 Side.BUY).stampDuty
        + (calculateTradingCharges 11144 Side.BUY).sebiCharges) := by
  norm_num [calculateTradingCharges, rawBrokerage, rawStt, rawExchangeCharges,
    rawSebiCharges, rawStampDuty, rawGst, round2, jsRound]

/-- C2, amended: each charge component is rounded to 2 decimal places
independently, but the returned total is the rounded sum of the *unrounded*
components (rounding is applied once, after summation). -/
theorem calculateTradingCharges_rounding (orderValue : ℚ) (orderType : Side) :
    (calculateTradingCharges orderValue orderType).brokerage
        = round2 (rawBrokerage orderValue)
      ∧ (calculateTradingCharges orderValue orderType).stt
        = round2 (rawStt orderValue orderType)
      ∧ (calculateTradingCharges orderValue orderType).exchangeCharges
        = round2 (rawExchangeCharges orderValue)
      ∧ (calculateTradingCharges orderValue orderType).gst
        = round2 (rawGst orderValue)
      ∧ (calculateTradingCharges orderValue orderType).stampDuty
        = round2 (rawStampDuty orderValue orderType)
      ∧ (calculateTradingCharges orderValue orderType).sebiCharges
        = round2 (rawSebiCharges orderValue)
      ∧ (calculateTradingCharges orderValue orderType).total
        = round2 (rawBrokerage orderValue + rawStt orderValue orderType
            + rawExchangeCharges orderValue + rawGst orderValue
            + rawStampDuty orderValue orderType + rawSebiCharges orderValue) :=
  ⟨rfl, rfl, rfl, rfl, rfl, rfl, rfl⟩

/-- If `find?` locates `h` in `l` and `f h` still satisfies the predicate,
then on the list with the first match replaced, `find?` returns `f h`. -/
theorem find?_updateFirst (p : IHolding → Bool) (f : IHolding → IHolding)
    (l : List IHolding) (h : IHolding) (hl : l.find? p = some h)
    (hp : p (f h) = true) :
    (updateFirst p f l).find? p = some (f h) := by
  induction l with
  | nil => simp at hl
  | cons a t ih =>
    rw [List.find?_cons] at hl
    by_cases hpa : p a
    · simp only [hpa, if_pos] at hl
      cases hl
      simp [updateFirst, hpa, List.find?_cons, hp]
    · simp only [Bool.not_eq_true] at hpa
      simp only [hpa] at hl
      simp [updateFirst, hpa, List.find?_cons, ih hl]

/-- C6: a BUY of `Q` at price `P` followed by a SELL of `Q` at `P` on a
fresh portfolio lowers cash by exactly the two charge totals, never
passes through a negative holding, and removes the holding entirely
when its quantity reaches zero. -/
theorem roundTrip_buy_sell (cash Q P : ℚ) (sym : String) (q : QuoteData)
    (hQ : 0 < Q) :
    (updatePortfolioAfterTrade
        (updatePortfolioAfterTrade (freshPortfolio cash)
          (mkExecutedTrade sym Side.BUY Q P) q)
        (mkExecutedTrade sym Side.SELL Q P) q).cash
      = cash - (calculateTradingCharges (P * Q) Side.BUY).total
          - (calculateTradingCharges (P * Q) Side.SELL).total
    ∧ (∀ h ∈ (updatePortfolioAfterTrade (freshPortfolio cash)
        (mkExecutedTrade sym Side.BUY Q P) q).holdings, 0 ≤ h.quantity)
    ∧ (updatePortfolioAfterTrade
        (updatePortfolioAfterTrade (freshPortfolio cash)
          (mkExecutedTrade sym Side.BUY Q P) q)
        (mkExecutedTrade sym Side.SELL Q P) q).holdings = [] := by
  refine ⟨?_, ?_, ?_⟩
  · simp [updatePortfolioAfterTrade, applyBuyHoldings, applySellHoldings,
      mkExecutedTrade, freshPortfolio, newHolding, updateFirst]
    ring
  · simp [updatePortfolioAfterTrade, applyBuyHoldings, applySellHoldings,
      mkExecutedTrade, freshPortfolio, newHolding, updateFirst]
    exact le_of_lt hQ
  · simp [updatePortfolioAfterTrade, applyBuyHoldings, applySellHoldings,
      mkExecutedTrade, freshPortfolio, newHolding, updateFirst]

/-- C7: a BUY on a symbol with an existing holding updates that holding to
the weighted-average cost basis stated in the spec: quantity
`old + executed`, average price
`(old_avg*old_qty + price*qty + charges.total) / (old_qty + qty)`,
invested value equal to that numerator, current value equal to the new
quantity times the current market price. -/
theorem buy_existing_holding_weighted_average (pf : IPortfolio) (t : ITrade)
    (q : QuoteData) (h : IHolding) (ht : t.type = Side.BUY)
    (hf : pf.holdings.find? (fun x => x.symbol == t.symbol) = some h) :
    ∃ h', (updatePortfolioAfterTrade pf t q).holdings.find?
          (fun x => x.symbol == t.symbol) = some h'
      ∧ h'.quantity = h.quantity + t.executedQuantity
      ∧ h'.averagePrice = (h.averagePrice * h.quantity
          + t.executedPrice * t.executedQuantity + t.charges.total)
          / (h.quantity + t.executedQuantity)
      ∧ h'.investedValue = h.averagePrice * h.quantity
          + t.executedPrice * t.executedQuantity + t.charges.total
      ∧ h'.currentValue = (h.quantity + t.executedQuantity) * q.regularMarketPrice := by
  have hsym : (buyUpdateHolding t q h).symbol = h.symbol := rfl
  have hph : ((fun x => x.symbol == t.symbol) h) = true := by
    have := List.find?_some hf
    simpa using this
  refine ⟨buyUpdateHolding t q h, ?_, rfl, rfl, rfl, rfl⟩
  have : (updatePortfolioAfterTrade pf t q).holdings
      = updateFirst (fun x => x.symbol == t.symbol) (buyUpdateHolding t q) pf.holdings := by
    simp [updatePortfolioAfterTrade, ht, applyBuyHoldings, hf]
  rw [this]
  exact find?_updateFirst _ _ _ _ hf (by rw [hsym]; exact hph)

/-- C9: `validateOrder` on a SELL order for a symbol with no holding in
the portfolio returns `isValid = false` with an error message that
mentions (contains) the symbol. -/
theorem validateOrder_sell_no_holding (order : OrderRequest) (pf : IPortfolio)
    (currentPrice : ℚ) (ht : order.type = Side.SELL)
    (hf : pf.holdings.find? (fun h => h.symbol == order.symbol) = none) :
    (validateOrder order pf currentPrice).isValid = false
    ∧ ∃ e ∈ (validateOrder order pf currentPrice).errors,
        order.symbol.data <:+: e.data := by
  have hmem : ("You don\x27t own any shares of " ++ order.symbol)
      ∈ (validateOrder order pf currentPrice).errors := by
    simp [validateOrder, ht, hf]
  constructor
  · cases herrs : (validateOrder order pf currentPrice).errors with
    | nil => rw [herrs] at hmem; simp at hmem
    | cons a t =>
      have hv : (validateOrder order pf currentPrice).isValid
          = (validateOrder order pf currentPrice).errors.isEmpty := rfl
      rw [hv, herrs]
      rfl
  · exact ⟨_, hmem, ("You don\x27t own any shares of ").data, [], by simp⟩

/-- Bucket alignment is monotone in the event time. -/
theorem getCurrentCandleStartTime_mono {a b : ℕ} (h : a ≤ b) :
    getCurrentCandleStartTime a ≤ getCurrentCandleStartTime b :=
  Nat.mul_le_mul_right _ (Nat.div_le_div_right (Nat.div_le_div_right h))

/-- A freshly opened candle is OHLC-well-formed. -/
theorem goodCandle_mkNewCandle (t : ℕ) (q : ChartQuote) :
    goodCandle (mkNewCandle t q) :=
  ⟨le_max_left _ _, min_le_left _ _⟩

/-- A same-bucket update preserves OHLC well-formedness. -/
theorem goodCandle_updateCandle (c : Candle) (q : ChartQuote)
    (h : goodCandle c) : goodCandle (updateCandle c q) := by
  obtain ⟨h1, h2⟩ := h
  constructor
  · apply max_le
    · exact le_max_of_le_left (le_max_of_le_left (le_trans (le_max_left _ _) h1))
    · exact le_max_of_le_left (le_max_right _ _)
  · apply le_min
    · exact le_trans (min_le_of_left_le (min_le_left _ _))
        (le_trans h2 (min_le_left _ _))
    · exact min_le_of_left_le (min_le_right _ _)

/-- The invariant weakens along growing time bounds. -/
theorem inv_mono (st : AggState) {a b : ℕ} (hab : a ≤ b) (h : Inv st a) :
    Inv st b := by
  obtain ⟨h1, h2, h3, h4⟩ := h
  exact ⟨h1, h2,
    fun c hc => le_trans (h3 c hc) (getCurrentCandleStartTime_mono hab), h4⟩

/-- One `ingest` step at time `t` preserves the invariant at bound `t`. -/
theorem ingest_inv (st : AggState) (t : ℕ) (q : ChartQuote) (h : Inv st t) :
    Inv (ingest st t q) t := by
  obtain ⟨hpair, hgood, hbound, hnil⟩ := h
  unfold ingest
  split
  · exact ⟨hpair, hgood, hbound, hnil⟩
  · split
    · exact ⟨hpair, hgood, hbound, hnil⟩
    · split
      · next heq =>
        have hsl := hnil heq
        refine ⟨?_, ?_, ?_, ?_⟩
        · simp [emitted, hsl]
        · intro c hc
          simp [emitted, hsl] at hc
          rw [hc]
          exact goodCandle_mkNewCandle t q
        · intro c hc
          simp [Option.mem_def] at hc
          rw [← hc]
          exact Nat.le_of_eq rfl
        · intro hcontra
          simp at hcontra
      · next c heq =>
        have hpair' : (st.sealedCandles ++ [c]).Pairwise
            (fun a d => a.startTime < d.startTime) := by
          simpa [emitted, heq] using hpair
        have hgood' : ∀ x ∈ st.sealedCandles ++ [c], goodCandle x := by
          intro x hx
          exact hgood x (by simp [emitted, heq]; simpa using hx)
        have hbc : c.startTime ≤ getCurrentCandleStartTime t :=
          hbound c (by simp [heq])
        obtain ⟨hp1, _, hp12⟩ := List.pairwise_append.mp hpair'
        split
        · next hshould =>
          have hne : getCurrentCandleStartTime t ≠ c.startTime := by
            simpa [shouldCreateNewCandle] using hshould
          have hlt : c.startTime < getCurrentCandleStartTime t :=
            lt_of_le_of_ne hbc (Ne.symm hne)
          refine ⟨?_, ?_, ?_, ?_⟩
          · show ((st.sealedCandles ++ [c]) ++ [mkNewCandle t q]).Pairwise _
            apply List.pairwise_append.mpr
            refine ⟨hpair', by simp, ?_⟩
            intro a ha b hb
            simp at hb
            rw [hb]
            show a.startTime < getCurrentCandleStartTime t
            rcases List.mem_append.mp ha with hs | hc1
            · exact lt_trans (hp12 a hs c (by simp)) hlt
            · simp at hc1
              rw [hc1]
              exact hlt
          · intro x hx
            rcases List.mem_append.mp hx with hs | hn
            · exact hgood' x hs
            · simp at hn
              rw [hn]
              exact goodCandle_mkNewCandle t q
          · intro x hx
            simp [Option.mem_def] at hx
            rw [← hx]
            exact Nat.le_of_eq rfl
          · intro hcontra
            simp at hcontra
        · next hshould =>
          have heqb : getCurrentCandleStartTime t = c.startTime := by
            simpa [shouldCreateNewCandle] using hshould
          refine ⟨?_, ?_, ?_, ?_⟩
          · show (st.sealedCandles ++ [updateCandle c q]).Pairwise _
            apply List.pairwise_append.mpr
            refine ⟨hp1, by simp, ?_⟩
            intro a ha b hb
            simp at hb
            rw [hb]
            show a.startTime < c.startTime
            exact hp12 a ha c (by simp)
          · intro x hx
            rcases List.mem_append.mp hx with hs | hn
            · exact hgood' x (List.mem_append.mpr (Or.inl hs))
            · simp at hn
              rw [hn]
              exact goodCandle_updateCandle c q (hgood' c (by simp))
          · intro x hx
            simp [Option.mem_def] at hx
            rw [← hx]
            exact hbc
          · intro hcontra
            simp at hcontra

/-- Folding `ingest` over chronologically ordered ticks keeps the
invariant (at some final bound). -/
theorem foldl_ingest_inv (steps : List (ℕ × ChartQuote)) :
    ∀ (st : AggState) (b : ℕ),
      List.Chain' (· ≤ ·) (b :: steps.map Prod.fst) → Inv st b →
      ∃ b', Inv (steps.foldl (fun s p => ingest s p.1 p.2) st) b' := by
  induction steps with
  | nil => exact fun st b _ h => ⟨b, h⟩
  | cons p rest ih =>
    intro st b hchain hinv
    rw [List.map_cons, List.chain'_cons] at hchain
    obtain ⟨hb, hchain'⟩ := hchain
    simp only [List.foldl_cons]
    exact ih (ingest st p.1 p.2) p.1 hchain' (ingest_inv _ _ _ (inv_mono _ hb hinv))

/-- C5: over any sequence of quotes with non-decreasing event times, the
aggregator never emits two candles with the same bucket start, and every
emitted candle satisfies `high ≥ max(open, close)` and
`low ≤ min(open, close)`. -/
theorem aggregator_unique_buckets_wellformed (steps : List (ℕ × ChartQuote))
    (hchain : (steps.map Prod.fst).Chain' (· ≤ ·)) :
    (emitted (aggregate steps)).Pairwise (fun a d => a.startTime ≠ d.startTime)
    ∧ ∀ c ∈ emitted (aggregate steps),
        max c.«open» c.close ≤ c.high ∧ c.low ≤ min c.«open» c.close := by
  have hinit : Inv initAgg 0 := by
    refine ⟨?_, ?_, ?_, ?_⟩ <;> simp [initAgg, emitted]
  have hchain0 : List.Chain' (· ≤ ·) (0 :: steps.map Prod.fst) := by
    cases hsteps : steps.map Prod.fst with
    | nil => simp
    | cons x l =>
      rw [List.chain'_cons]
      exact ⟨Nat.zero_le _, hsteps ▸ hchain⟩
  obtain ⟨b', h1, h2, _, _⟩ := foldl_ingest_inv steps initAgg 0 hchain0 hinit
  exact ⟨h1.imp fun h => Nat.ne_of_lt h, h2⟩

/-- C3, amended: a quote whose bucket start is strictly earlier than the
open candle's is *not* a no-op — the guard only checks inequality, so the
open candle is sealed and a new candle is opened at the earlier bucket
start. -/
theorem ingest_earlier_bucket_opens_new (st : AggState) (c : Candle)
    (t : ℕ) (q : ChartQuote) (hact : st.active = true)
    (hq : q.marketState ≠ MarketState.CLOSED)
    (heq : st.currentCandle = some c)
    (hlt : getCurrentCandleStartTime t < c.startTime) :
    ingest st t q = { st with
        currentCandle := some (mkNewCandle t q)
        sealedCandles := st.sealedCandles ++ [c] }
    ∧ (mkNewCandle t q).startTime = getCurrentCandleStartTime t := by
  refine ⟨?_, rfl⟩
  have hshould : shouldCreateNewCandle t c.startTime = true := by
    simp [shouldCreateNewCandle]
    exact Nat.ne_of_lt hlt
  simp [ingest, hact, hq, heq, hshould]


/-- C3, counterexample: ingesting a quote whose bucket start (0) is
strictly earlier than the open candle's (300) changes the state — the
open candle becomes a new candle at bucket 0, so the ingest is not a
no-op. -/
theorem ingest_earlier_bucket_not_noop :
    (ingest stC3 0 quoteC3).currentCandle.map Candle.startTime = some 0
    ∧ stC3.currentCandle.map Candle.startTime = some 300
    ∧ ingest stC3 0 quoteC3 ≠ stC3 := by
  refine ⟨?_, ?_, ?_⟩
  · simp [ingest, stC3, quoteC3, candle300, shouldCreateNewCandle,
      getCurrentCandleStartTime, mkNewCandle]
  · simp [stC3, candle300]
  · intro hcontra
    have h0 : (ingest stC3 0 quoteC3).currentCandle.map Candle.startTime
        = some 0 := by
      simp [ingest, stC3, quoteC3, candle300, shouldCreateNewCandle,
        getCurrentCandleStartTime, mkNewCandle]
    rw [hcontra] at h0
    simp [stC3, candle300] at h0


/-- C4, counterexample: with no open candle, ingesting `quoteC4` opens a
candle whose open is the quote's day open (100), not the quote price
(105) — so the new candle does not have `open = close = high = low =
price`. -/
theorem new_candle_open_ne_quote_price :
    (ingest initAgg 600000 quoteC4).currentCandle.map Candle.«open»
      ≠ some quoteC4.regularMarketPrice := by
  simp [ingest, initAgg, quoteC4, mkNewCandle, getCurrentCandleStartTime, jsOr]

/-- C4, amended: whenever no open candle exists or the quote's bucket
start differs from the open candle's, a new candle is opened with
`open = day open (fallback: price)`, `close = price`,
`high = max(open, price, day high)`, `low = min(open, price, day low)`,
`volume = quote volume (fallback: 0)`, at the quote's bucket start. -/
theorem ingest_opens_new_candle_fields (st : AggState) (t : ℕ) (q : ChartQuote)
    (hact : st.active = true) (hq : q.marketState ≠ MarketState.CLOSED)
    (hnew : st.currentCandle = none
      ∨ ∃ c, st.currentCandle = some c
          ∧ getCurrentCandleStartTime t ≠ c.startTime) :
    ∃ c', (ingest st t q).currentCandle = some c'
      ∧ c'.«open» = jsOr q.regularMarketOpen q.regularMarketPrice
      ∧ c'.close = q.regularMarketPrice
      ∧ c'.high = max (max (jsOr q.regularMarketOpen q.regularMarketPrice)
          q.regularMarketPrice) (jsOr q.regularMarketDayHigh q.regularMarketPrice)
      ∧ c'.low = min (min (jsOr q.regularMarketOpen q.regularMarketPrice)
          q.regularMarketPrice) (jsOr q.regularMarketDayLow q.regularMarketPrice)
      ∧ c'.volume = jsOr q.regularMarketVolume 0
      ∧ c'.startTime = getCurrentCandleStartTime t := by
  refine ⟨mkNewCandle t q, ?_, rfl, rfl, rfl, rfl, rfl, rfl⟩
  rcases hnew with hnone | ⟨c, hsome, hne⟩
  · simp [ingest, hact, hq, hnone]
  · have hshould : shouldCreateNewCandle t c.startTime = true := by
      simpa [shouldCreateNewCandle] using hne
    simp [ingest, hact, hq, hsome, hshould]



/-- C8, evaluation at the failing input: selling 10 shares while holding
only 5 does not fail — `updatePortfolioAfterTrade` silently keeps the
holding with quantity `-5` (violating the Portfolio schema's declared
`min: 0` on holding quantity). -/
theorem oversell_produces_negative_holding :
    ((updatePortfolioAfterTrade { freshPortfolio 1000 with holdings := [holdingX5] }
        (mkExecutedTrade "X" Side.SELL 10 100) quoteX).holdings.map
      IHolding.quantity) = [-5] := by
  norm_num [updatePortfolioAfterTrade, applySellHoldings, mkExecutedTrade,
    freshPortfolio, holdingX5, quoteX, updateFirst, sellRecompute]

/-- Writing an existing key of an association list and reading it back
yields the written value. -/
theorem find?_set_assoc (l : List (ℕ × IHolding)) (a : ℕ) (v : IHolding)
    (hf : ∃ y, (a, y) ∈ l) :
    ((l.map (fun p => if p.1 == a then (a, v) else p)).find?
      (fun p => p.1 == a)).map Prod.snd = some v := by
  induction l with
  | nil => simp at hf
  | cons x t ih =>
    by_cases hx : x.1 = a
    · simp [hx]
    · have hxb : (x.1 == a) = false := by simp [hx]
      obtain ⟨y, hy⟩ := hf
      have hyt : (a, y) ∈ t := by
        rcases List.mem_cons.mp hy with hh | hh
        · exact absurd (congrArg Prod.fst hh.symm) hx
        · exact hh
      rw [List.map_cons, List.find?_cons_of_neg]
      · exact ih ⟨y, hyt⟩
      · simp [hxb]

/-- `Store.setObj` at an allocated address is visible to `Store.getObj`. -/
theorem getObj_setObj (σ : Store) (a : ℕ) (v h : IHolding)
    (hobj : σ.getObj a = some h) : (σ.setObj a v).getObj a = some v := by
  unfold Store.getObj at hobj
  cases hfind : σ.objs.find? (fun p => p.1 == a) with
  | none => rw [hfind] at hobj; simp at hobj
  | some pr =>
    have hmem := List.mem_of_find?_eq_some hfind
    have hkey : pr.1 = a := by
      have := List.find?_some hfind
      simpa using this
    unfold Store.getObj Store.setObj
    exact find?_set_assoc σ.objs a v
      ⟨pr.2, by rw [← hkey, Prod.mk.eta]; exact hmem⟩

/-- C10: `updatePortfolioAfterTrade` mutates its input. The returned
portfolio shares the holdings array and Holding objects with the input;
a BUY on an existing holding, and a partial SELL, update the aliased
Holding object in place, so dereferencing the *input* portfolio after
the call yields the post-trade holding, not its pre-trade state. -/
theorem updatePortfolioAfterTrade_mutates_input (σ : Store) (pf : PortfolioRef)
    (a : ℕ) (h : IHolding) (sym : String) (buyQty sellQty price : ℚ)
    (q : QuoteData) (harr : σ.getArr pf.holdings = [a])
    (hobj : σ.getObj a = some h) (hsym : h.symbol = sym)
    (hbuy : buyQty ≠ 0) (hsell : sellQty ≠ 0)
    (hrem : h.quantity - sellQty ≠ 0) :
    (((updatePortfolioAfterTradeRef σ pf (mkExecutedTrade sym Side.BUY buyQty price) q).1).getObj a
        = some (buyUpdateHolding (mkExecutedTrade sym Side.BUY buyQty price) q h)
      ∧ ((updatePortfolioAfterTradeRef σ pf (mkExecutedTrade sym Side.BUY buyQty price) q).1).getObj a
        ≠ some h
      ∧ ((updatePortfolioAfterTradeRef σ pf (mkExecutedTrade sym Side.BUY buyQty price) q).1).getArr pf.holdings
        = [a]
      ∧ (updatePortfolioAfterTradeRef σ pf (mkExecutedTrade sym Side.BUY buyQty price) q).2.holdings
        = pf.holdings)
    ∧ (((updatePortfolioAfterTradeRef σ pf (mkExecutedTrade sym Side.SELL sellQty price) q).1).getObj a
        = some (sellRecompute q { h with quantity := h.quantity - sellQty })
      ∧ ((updatePortfolioAfterTradeRef σ pf (mkExecutedTrade sym Side.SELL sellQty price) q).1).getObj a
        ≠ some h) := by
  have hfind : findAddr σ sym (σ.getArr pf.holdings) = some a := by
    rw [harr]
    simp [findAddr, hobj, hsym]
  have hbuyStore : (updatePortfolioAfterTradeRef σ pf
      (mkExecutedTrade sym Side.BUY buyQty price) q).1
      = σ.setObj a (buyUpdateHolding (mkExecutedTrade sym Side.BUY buyQty price) q h) := by
    simp [updatePortfolioAfterTradeRef, mkExecutedTrade, hfind, hobj]
  have hbuyPf : (updatePortfolioAfterTradeRef σ pf
      (mkExecutedTrade sym Side.BUY buyQty price) q).2.holdings = pf.holdings := by
    simp [updatePortfolioAfterTradeRef, mkExecutedTrade, hfind, hobj, finishTotals]
  have hsellStore : (updatePortfolioAfterTradeRef σ pf
      (mkExecutedTrade sym Side.SELL sellQty price) q).1
      = (σ.setObj a { h with quantity := h.quantity - sellQty }).setObj a
          (sellRecompute q { h with quantity := h.quantity - sellQty }) := by
    simp [updatePortfolioAfterTradeRef, mkExecutedTrade, hfind, hobj, hrem]
  have hget1 : (σ.setObj a { h with quantity := h.quantity - sellQty }).getObj a
      = some { h with quantity := h.quantity - sellQty } :=
    getObj_setObj σ a _ h hobj
  refine ⟨⟨?_, ?_, ?_, ?_⟩, ?_, ?_⟩
  · rw [hbuyStore]
    exact getObj_setObj σ a _ h hobj
  · rw [hbuyStore, getObj_setObj σ a _ h hobj]
    intro hco
    have hq : (buyUpdateHolding (mkExecutedTrade sym Side.BUY buyQty price) q h).quantity
        = h.quantity := by
      have := Option.some.inj hco
      rw [this]
    have : h.quantity + buyQty = h.quantity := hq
    exact hbuy (by linarith)
  · rw [hbuyStore]
    exact harr
  · exact hbuyPf
  · rw [hsellStore]
    exact getObj_setObj _ a _ _ hget1
  · rw [hsellStore, getObj_setObj _ a _ _ hget1]
    intro hco
    have hq : (sellRecompute q { h with quantity := h.quantity - sellQty }).quantity
        = h.quantity := by
      have := Option.some.inj hco
      rw [this]
    have : h.quantity - sellQty = h.quantity := hq
    exact hsell (by linarith)

/-- C1, counterexample: with `trade.save()` succeeding and the portfolio
`findOneAndUpdate` failing, the handler returns the 500 storage error,
yet the EXECUTED trade remains persisted while the portfolio is
unchanged — even though the trade's intended portfolio update is not the
identity. The commit is partial and the trade is not at its prior
status (it did not exist before the call). -/
theorem trade_persisted_portfolio_not_updated :
    (placeOrderPersist db0C1 tradeC1 quoteX true false).1.trades = [tradeC1]
    ∧ tradeC1.status = "EXECUTED"
    ∧ (placeOrderPersist db0C1 tradeC1 quoteX true false).1.portfolio
      = freshPortfolio 1000000
    ∧ (placeOrderPersist db0C1 tradeC1 quoteX true false).2
      = PlaceOrderOutcome.storageError
    ∧ updatePortfolioAfterTrade (freshPortfolio 1000000) tradeC1 quoteX
      ≠ freshPortfolio 1000000 := by
  refine ⟨?_, rfl, ?_, ?_, ?_⟩
  · simp [placeOrderPersist, db0C1, tradeC1, mkExecutedTrade]
  · simp [placeOrderPersist, db0C1, tradeC1, mkExecutedTrade]
  · simp [placeOrderPersist, db0C1, tradeC1, mkExecutedTrade]
  · intro hco
    have hcash := congrArg IPortfolio.cash hco
    rw [show (updatePortfolioAfterTrade (freshPortfolio 1000000) tradeC1 quoteX).cash
        = 1000000 - (100 * 10 + (calculateTradingCharges (100 * 10) Side.BUY).total)
      from rfl] at hcash
    norm_num [calculateTradingCharges, rawBrokerage, rawStt, rawExchangeCharges,
      rawSebiCharges, rawStampDuty, rawGst, round2, jsRound, freshPortfolio] at hcash

/-- C1, amended: the trade record and the portfolio update are two
separate, non-transactional writes. If the portfolio write fails after a
successful `trade.save()`, the caller receives the retryable 500 storage
error and the portfolio document is untouched (it is written
all-or-nothing in a single update), but the EXECUTED trade remains
persisted — the trade does not revert to its prior status. -/
theorem placeOrder_portfolio_write_failure (db : TradingDB) (trade : ITrade)
    (quote : QuoteData) (hst : trade.status = "EXECUTED") :
    placeOrderPersist db trade quote true false
      = ({ db with trades := db.trades ++ [trade] },
          PlaceOrderOutcome.storageError) := by
  simp [placeOrderPersist, hst]

/-- Witness for `placeOrder_portfolio_write_failure` at a concrete
executed trade. -/
theorem placeOrder_portfolio_write_failure_witness :
    tradeC1.status = "EXECUTED"
    ∧ placeOrderPersist db0C1 tradeC1 quoteX true false
      = ({ db0C1 with trades := db0C1.trades ++ [tradeC1] },
          PlaceOrderOutcome.storageError) :=
  ⟨rfl, placeOrder_portfolio_write_failure db0C1 tradeC1 quoteX rfl⟩

/-- Witness for `ingest_earlier_bucket_opens_new` at the concrete state
`stC3` and the bucket-0 quote. -/
theorem ingest_earlier_bucket_opens_new_witness :
    stC3.active = true
    ∧ quoteC3.marketState ≠ MarketState.CLOSED
    ∧ stC3.currentCandle = some candle300
    ∧ getCurrentCandleStartTime 0 < candle300.startTime
    ∧ (ingest stC3 0 quoteC3 = { stC3 with
          currentCandle := some (mkNewCandle 0 quoteC3)
          sealedCandles := stC3.sealedCandles ++ [candle300] }
        ∧ (mkNewCandle 0 quoteC3).startTime = getCurrentCandleStartTime 0) :=
  ⟨rfl, by decide, rfl, by decide,
    ingest_earlier_bucket_opens_new stC3 candle300 0 quoteC3 rfl (by decide)
      rfl (by decide)⟩

/-- Witness for `ingest_opens_new_candle_fields` starting from the empty
aggregator state. -/
theorem ingest_opens_new_candle_fields_witness :
    initAgg.active = true
    ∧ quoteC4.marketState ≠ MarketState.CLOSED
    ∧ (initAgg.currentCandle = none
        ∨ ∃ c, initAgg.currentCandle = some c
            ∧ getCurrentCandleStartTime 600000 ≠ c.startTime)
    ∧ ∃ c', (ingest initAgg 600000 quoteC4).currentCandle = some c'
        ∧ c'.«open» = jsOr quoteC4.regularMarketOpen quoteC4.regularMarketPrice
        ∧ c'.close = quoteC4.regularMarketPrice
        ∧ c'.high = max (max (jsOr quoteC4.regularMarketOpen quoteC4.regularMarketPrice)
            quoteC4.regularMarketPrice)
            (jsOr quoteC4.regularMarketDayHigh quoteC4.regularMarketPrice)
        ∧ c'.low = min (min (jsOr quoteC4.regularMarketOpen quoteC4.regularMarketPrice)
            quoteC4.regularMarketPrice)
            (jsOr quoteC4.regularMarketDayLow quoteC4.regularMarketPrice)
        ∧ c'.volume = jsOr quoteC4.regularMarketVolume 0
        ∧ c'.startTime = getCurrentCandleStartTime 600000 :=
  ⟨rfl, by decide, Or.inl rfl,
    ingest_opens_new_candle_fields initAgg 600000 quoteC4 rfl (by decide)
      (Or.inl rfl)⟩

/-- Witness for `aggregator_unique_buckets_wellformed` on a concrete
two-tick run. -/
theorem aggregator_unique_buckets_wellformed_witness :
    (([(0, quoteC3), (600000, quoteC4)].map Prod.fst).Chain' (· ≤ ·))
    ∧ ((emitted (aggregate [(0, quoteC3), (600000, quoteC4)])).Pairwise
        (fun a d => a.startTime ≠ d.startTime)
      ∧ ∀ c ∈ emitted (aggregate [(0, quoteC3), (600000, quoteC4)]),
          max c.«open» c.close ≤ c.high ∧ c.low ≤ min c.«open» c.close) :=
  ⟨by simp, aggregator_unique_buckets_wellformed
    [(0, quoteC3), (600000, quoteC4)] (by simp)⟩

/-- Witness for `roundTrip_buy_sell`: buy then sell 10 shares at 100 on a
fresh ₹10-lakh portfolio. -/
theorem roundTrip_buy_sell_witness :
    (0 : ℚ) < 10
    ∧ ((updatePortfolioAfterTrade
        (updatePortfolioAfterTrade (freshPortfolio 1000000)
          (mkExecutedTrade "X" Side.BUY 10 100) quoteX)
        (mkExecutedTrade "X" Side.SELL 10 100) quoteX).cash
      = 1000000 - (calculateTradingCharges (100 * 10) Side.BUY).total
          - (calculateTradingCharges (100 * 10) Side.SELL).total
    ∧ (∀ h ∈ (updatePortfolioAfterTrade (freshPortfolio 1000000)
        (mkExecutedTrade "X" Side.BUY 10 100) quoteX).holdings, 0 ≤ h.quantity)
    ∧ (updatePortfolioAfterTrade
        (updatePortfolioAfterTrade (freshPortfolio 1000000)
          (mkExecutedTrade "X" Side.BUY 10 100) quoteX)
        (mkExecutedTrade "X" Side.SELL 10 100) quoteX).holdings = []) :=
  ⟨by norm_num, roundTrip_buy_sell 1000000 10 100 "X" quoteX (by norm_num)⟩

/-- Witness for `buy_existing_holding_weighted_average` on `pfHoldingX`. -/
theorem buy_existing_holding_weighted_average_witness :
    (mkExecutedTrade "X" Side.BUY 10 200).type = Side.BUY
    ∧ pfHoldingX.holdings.find?
        (fun x => x.symbol == (mkExecutedTrade "X" Side.BUY 10 200).symbol)
      = some holdingX5
    ∧ ∃ h', (updatePortfolioAfterTrade pfHoldingX
          (mkExecutedTrade "X" Side.BUY 10 200) quoteX).holdings.find?
          (fun x => x.symbol == (mkExecutedTrade "X" Side.BUY 10 200).symbol) = some h'
      ∧ h'.quantity = holdingX5.quantity
          + (mkExecutedTrade "X" Side.BUY 10 200).executedQuantity
      ∧ h'.averagePrice = (holdingX5.averagePrice * holdingX5.quantity
          + (mkExecutedTrade "X" Side.BUY 10 200).executedPrice
            * (mkExecutedTrade "X" Side.BUY 10 200).executedQuantity
          + (mkExecutedTrade "X" Side.BUY 10 200).charges.total)
          / (holdingX5.quantity + (mkExecutedTrade "X" Side.BUY 10 200).executedQuantity)
      ∧ h'.investedValue = holdingX5.averagePrice * holdingX5.quantity
          + (mkExecutedTrade "X" Side.BUY 10 200).executedPrice
            * (mkExecutedTrade "X" Side.BUY 10 200).executedQuantity
          + (mkExecutedTrade "X" Side.BUY 10 200).charges.total
      ∧ h'.currentValue = (holdingX5.quantity
          + (mkExecutedTrade "X" Side.BUY 10 200).executedQuantity)
          * quoteX.regularMarketPrice :=
  ⟨rfl, by simp [pfHoldingX, freshPortfolio, holdingX5, mkExecutedTrade],
    buy_existing_holding_weighted_average pfHoldingX
      (mkExecutedTrade "X" Side.BUY 10 200) quoteX holdingX5 rfl
      (by simp [pfHoldingX, freshPortfolio, holdingX5, mkExecutedTrade])⟩

/-- Witness for `validateOrder_sell_no_holding` on a fresh portfolio. -/
theorem validateOrder_sell_no_holding_witness :
    orderW.type = Side.SELL
    ∧ (freshPortfolio 100).holdings.find?
        (fun h => h.symbol == orderW.symbol) = none
    ∧ ((validateOrder orderW (freshPortfolio 100) 10).isValid = false
      ∧ ∃ e ∈ (validateOrder orderW (freshPortfolio 100) 10).errors,
          orderW.symbol.data <:+: e.data) :=
  ⟨rfl, rfl, validateOrder_sell_no_holding orderW (freshPortfolio 100) 10 rfl rfl⟩

/-- Witness for `updatePortfolioAfterTrade_mutates_input` on the concrete
store `storeW`. -/
theorem updatePortfolioAfterTrade_mutates_input_witness :
    storeW.getArr pfRefW.holdings = [1]
    ∧ storeW.getObj 1 = some holdingX5
    ∧ holdingX5.symbol = "X"
    ∧ (10 : ℚ) ≠ 0
    ∧ (2 : ℚ) ≠ 0
    ∧ holdingX5.quantity - 2 ≠ 0
    ∧ ((((updatePortfolioAfterTradeRef storeW pfRefW
            (mkExecutedTrade "X" Side.BUY 10 150) quoteX).1).getObj 1
          = some (buyUpdateHolding (mkExecutedTrade "X" Side.BUY 10 150) quoteX holdingX5)
        ∧ ((updatePortfolioAfterTradeRef storeW pfRefW
            (mkExecutedTrade "X" Side.BUY 10 150) quoteX).1).getObj 1
          ≠ some holdingX5
        ∧ ((updatePortfolioAfterTradeRef storeW pfRefW
            (mkExecutedTrade "X" Side.BUY 10 150) quoteX).1).getArr pfRefW.holdings
          = [1]
        ∧ (updatePortfolioAfterTradeRef storeW pfRefW
            (mkExecutedTrade "X" Side.BUY 10 150) quoteX).2.holdings = pfRefW.holdings)
      ∧ (((updatePortfolioAfterTradeRef storeW pfRefW
            (mkExecutedTrade "X" Side.SELL 2 150) quoteX).1).getObj 1
          = some (sellRecompute quoteX
              { holdingX5 with quantity := holdingX5.quantity - 2 })
        ∧ ((updatePortfolioAfterTradeRef storeW pfRefW
            (mkExecutedTrade "X" Side.SELL 2 150) quoteX).1).getObj 1
          ≠ some holdingX5)) :=
  ⟨rfl, rfl, rfl, by norm_num, by norm_num, by norm_num [holdingX5],
    updatePortfolioAfterTrade_mutates_input storeW pfRefW 1 holdingX5 "X"
      10 2 150 quoteX rfl rfl rfl (by norm_num) (by norm_num)
      (by norm_num [holdingX5])⟩

end Kagazi
